import Mathlib

/-!
Verification of the databricks-ai-bridge repository.

Part 1 models the OAuth credential adapter (`DatabricksOAuthClientProvider`).
Its implementation is not among the supplied source files (only its unit
tests are), so the adapter is modelled from the specification, §§2-8.

Part 2 embeds the release-workflow generator
(`.github/workflows/generate_release_workflows.py`), which is supplied in
full, as Lean string templating.
-/

namespace DatabricksMcp

/-- The Credential Token of the spec's data model: access token (opaque
bearer string), token type, and expiry in seconds. -/
structure OAuthToken where
  access_token : String
  token_type : String
  expires_in : Nat
deriving Repr, DecidableEq

/-- Modelled from the spec: outcome of the workspace client's
identity-check ("who am I") operation, which either succeeds or fails
with a permission-denied condition. -/
inductive IdentityResult where
  | ok
  | permissionDenied (msg : String)
deriving Repr, DecidableEq

/-- Modelled from the spec: the workspace-client capability surface the
adapter consumes — an identity-check operation and an
authentication-config operation returning a header mapping. -/
structure WorkspaceClient where
  identity : IdentityResult
  authHeaders : List (String × String)
deriving Repr, DecidableEq

/-- Modelled from the spec: the two construction-time failure kinds of
the failure taxonomy (§4.1): a `PermissionError`-kind failure and a
`ValueError`-kind failure, each carrying a message. -/
inductive AdapterError where
  | permissionError (msg : String)
  | valueError (msg : String)
deriving Repr, DecidableEq

/-- The token-storage part of a constructed adapter: it owns the derived
Credential Token, materialized once at construction. -/
structure TokenStorage where
  token : OAuthToken
deriving Repr, DecidableEq

/-- The fixed message of the permission-denied construction failure. -/
def permissionDeniedMessage : String :=
  "The workspace client does not have permission to access the Databricks workspace"

/-- The fixed message of the malformed-authentication-scheme failure. -/
def invalidTokenMessage : String :=
  "Invalid authentication token format. Expected Bearer token."

/-- Characters of `cs` strictly before the first space. -/
def takeUntilSpace : List Char → List Char
  | [] => []
  | c :: cs => if c = ' ' then [] else c :: takeUntilSpace cs

/-- The scheme part of an `Authorization` header value: everything
before the first space (e.g. `"Bearer"` in `"Bearer test-token"`). -/
def authScheme (s : String) : String := ⟨takeUntilSpace s.data⟩

/-- The bearer value of an `Authorization` header value whose scheme is
`"Bearer"`: the text after the 7-character prefix `"Bearer "`. -/
def bearerValue (s : String) : String := ⟨s.data.drop 7⟩

/-- Lowercasing used to state the `token_type` normalization. -/
def strLower (s : String) : String := ⟨s.data.map Char.toLower⟩

/-- First value bound to key `k` in an association list of headers. -/
def lookupHeader (k : String) : List (String × String) → Option String
  | [] => none
  | (k2, v) :: rest => if k2 = k then some v else lookupHeader k rest

/-- The client calls the adapter can make, recorded in traces. -/
inductive ClientCall where
  | identityCheck
  | headerDerivation
deriving Repr, DecidableEq

/-- Modelled from the spec: construction of `DatabricksOAuthClientProvider`
(§4.1). Step 1 is the identity-check preflight, failing with a
permission error on a permission-denied condition; Step 2 derives the
authentication headers, locates the `Authorization` entry, and fails
with a value error unless its scheme prefix is exactly `"Bearer"`;
Step 3 materializes the Credential Token with the extracted bearer
value, a fixed 60-second expiry, and token type `"Bearer"`. The first
component of the result is the trace of workspace-client calls made. -/
def constructProvider (wc : WorkspaceClient) :
    List ClientCall × Except AdapterError TokenStorage :=
  match wc.identity with
  | .permissionDenied _ =>
      ([.identityCheck], .error (.permissionError permissionDeniedMessage))
  | .ok =>
      match lookupHeader "Authorization" wc.authHeaders with
      | none =>
          ([.identityCheck, .headerDerivation], .error (.valueError invalidTokenMessage))
      | some auth =>
          if authScheme auth = "Bearer" then
            ([.identityCheck, .headerDerivation],
             .ok ⟨⟨bearerValue auth, "Bearer", 60⟩⟩)
          else
            ([.identityCheck, .headerDerivation], .error (.valueError invalidTokenMessage))

/-- Modelled from the spec: the asynchronous `get_tokens` accessor. It
returns the previously materialized Credential Token, performs no
client call (empty trace) and no mutation (the state component is
returned unchanged), and cannot fail (the token option is always
populated). -/
def TokenStorage.get_tokens (s : TokenStorage) :
    List ClientCall × TokenStorage × Option OAuthToken :=
  ([], s, some s.token)

end DatabricksMcp

namespace ReleaseWorkflows

/-- A package entry of `generate_release_workflows.py`: a name and an
optional working directory (`none` means root level). -/
structure Package where
  name : String
  working_dir : Option String
deriving Repr, DecidableEq

/-- The fixed `PACKAGES` list of `generate_release_workflows.py`. -/
def PACKAGES : List Package :=
  [⟨"databricks-ai-bridge", none⟩,
   ⟨"databricks-langchain", some "integrations/langchain"⟩,
   ⟨"databricks-mcp", some "databricks_mcp"⟩,
   ⟨"databricks-openai", some "integrations/openai"⟩]

/-- The `dist_path` local of `generate_workflow`: `"dist/"` at root
level, `working_dir ++ "/dist/"` otherwise. -/
def dist_path (pkg : Package) : String :=
  match pkg.working_dir with
  | none => "dist/"
  | some wd => wd ++ "/dist/"

/-- The `defaults_section` local of `generate_workflow`: empty at root
level, otherwise a YAML defaults block setting the working directory. -/
def defaults_section (pkg : Package) : String :=
  match pkg.working_dir with
  | none => ""
  | some wd => "    defaults:\n      run:\n        " ++ ("working-directory: " ++ wd) ++ "\n"

/-- The `packages_dir_pypi` local of `generate_workflow`: empty at root
level, otherwise a `with:` block passing the packages directory. -/
def packages_dir_pypi (pkg : Package) : String :=
  match pkg.working_dir with
  | none => ""
  | some wd => "\n        with:\n          " ++ ("packages-dir: " ++ (wd ++ "/dist/"))

/-- The `packages_dir_testpypi` local of `generate_workflow`: empty at
root level, otherwise an extra `packages-dir` parameter line. -/
def packages_dir_testpypi (pkg : Package) : String :=
  match pkg.working_dir with
  | none => ""
  | some wd => "\n          " ++ ("packages-dir: " ++ (wd ++ "/dist/"))

/-- Literal run of the workflow template before the first hole
(`name: Release {pkg.name}`). -/
def tpl0 : String :=
  "# GENERATED FILE - DO NOT EDIT DIRECTLY\n" ++
  "# Regenerate with: uv run python .github/workflows/generate_release_workflows.py\n" ++
  "\n" ++
  "name: Release "

/-- Literal run between the `name:` hole and the tag-pattern hole. -/
def tpl1 : String :=
  "\n" ++
  "\n" ++
  "on:\n" ++
  "  push:\n" ++
  "    tags:\n" ++
  "      - \""

/-- Literal run from the tag pattern up to the first hole of the
environment `url:` line. -/
def tpl2 : String :=
  "-v*\"\n" ++
  "  workflow_dispatch:\n" ++
  "    inputs:\n" ++
  "      production:\n" ++
  "        description: \"Publish to PyPI? (If unchecked, will publish to TestPyPI)\"\n" ++
  "        required: true\n" ++
  "        default: false\n" ++
  "        type: boolean\n" ++
  "\n" ++
  "jobs:\n" ++
  "  release:\n" ++
  "    runs-on: ubuntu-latest\n" ++
  "\n" ++
  "    permissions:\n" ++
  "      id-token: write\n" ++
  "      contents: write\n" ++
  "    environment:\n" ++
  "      name: $\x7b\x7b inputs.production && \x27pypi\x27 || \x27testpypi\x27 \x7d\x7d\n" ++
  "      url: $\x7b\x7b inputs.production && \x27https://pypi.org/p/"

/-- Literal run between the two package-name holes of the `url:` line. -/
def tpl3 : String := "\x27 || \x27https://test.pypi.org/p/"

/-- Literal run closing the `url:` line, before the defaults-section hole. -/
def tpl4 : String := "\x27 \x7d\x7d\n"

/-- Literal run from `steps:` up to the `TAG_NAME` hole. -/
def tpl5 : String :=
  "    steps:\n" ++
  "      - uses: actions/checkout@v4\n" ++
  "\n" ++
  "      - uses: actions/setup-python@v5\n" ++
  "        with:\n" ++
  "          python-version: \"3.12\"\n" ++
  "\n" ++
  "      - name: Install build tools\n" ++
  "        run: pip install build\n" ++
  "\n" ++
  "      - name: Verify version matches tag\n" ++
  "        id: verify-version\n" ++
  "        run: |\n" ++
  "          # Get package version from pyproject.toml\n" ++
  "          PKG_VERSION=$(python -c \"import tomllib; print(tomllib.load(open(\x27pyproject.toml\x27, \x27rb\x27))[\x27project\x27][\x27version\x27])\")\n" ++
  "          echo \"version=$PKG_VERSION\" >> $GITHUB_OUTPUT\n" ++
  "\n" ++
  "          # Construct the expected tag name\n" ++
  "          TAG_NAME=\""

/-- Literal run from the tag-name hole up to the `dist-` artifact-name
hole. -/
def tpl6 : String :=
  "-v$PKG_VERSION\"\n" ++
  "\n" ++
  "          # Check if the tag exists on GitHub and points to the current commit\n" ++
  "          CURRENT_COMMIT=$(git rev-parse HEAD)\n" ++
  "          TAG_COMMIT=$(git ls-remote \x2d\x2dtags origin \"refs/tags/$TAG_NAME\" | cut -f1)\n" ++
  "\n" ++
  "          if [ -z \"$TAG_COMMIT\" ]; then\n" ++
  "            echo \"Tag $TAG_NAME does not exist on GitHub\"\n" ++
  "            exit 1\n" ++
  "          fi\n" ++
  "\n" ++
  "          if [ \"$CURRENT_COMMIT\" != \"$TAG_COMMIT\" ]; then\n" ++
  "            echo \"Tag $TAG_NAME exists but points to commit $TAG_COMMIT, not current commit $CURRENT_COMMIT\"\n" ++
  "            exit 1\n" ++
  "          fi\n" ++
  "\n" ++
  "          echo \"Verified: Tag $TAG_NAME exists and points to current commit $CURRENT_COMMIT\"\n" ++
  "\n" ++
  "      - name: Build package\n" ++
  "        run: python -m build\n" ++
  "\n" ++
  "      - name: Store the distribution packages\n" ++
  "        uses: actions/upload-artifact@v5\n" ++
  "        with:\n" ++
  "          name: dist-"

/-- Literal run between the artifact-name hole and the `path:` hole. -/
def tpl7 : String := "\n          path: "

/-- Literal run between the `path:` hole and the first `artifacts:`
hole. -/
def tpl8 : String :=
  "\n" ++
  "\n" ++
  "      - uses: ncipollo/release-action@v1\n" ++
  "        if: inputs.production\n" ++
  "        with:\n" ++
  "          artifacts: \""

/-- Literal run between the two `artifacts:` holes. -/
def tpl9 : String := "*.whl,"

/-- Literal run from the `artifacts:` line to the PyPI-publish step,
before the `packages_dir_pypi` hole. -/
def tpl10 : String :=
  "*.tar.gz\"\n" ++
  "          draft: true\n" ++
  "          generateReleaseNotes: true\n" ++
  "\n" ++
  "      - name: Publish to PyPI\n" ++
  "        if: inputs.production\n" ++
  "        uses: pypa/gh-action-pypi-publish@release/v1"

/-- Literal run between the `packages_dir_pypi` hole and the
`packages_dir_testpypi` hole. -/
def tpl11 : String :=
  "\n" ++
  "\n" ++
  "      - name: Publish to Test PyPI\n" ++
  "        if: github.event_name == \x27push\x27 || !inputs.production\n" ++
  "        uses: pypa/gh-action-pypi-publish@release/v1\n" ++
  "        with:\n" ++
  "          repository-url: https://test.pypi.org/legacy/"

/-- Literal run from the Test PyPI publish step up to the plain
`pip install` hole. -/
def tpl12 : String :=
  "\n" ++
  "\n" ++
  "      - name: Wait for package to be available\n" ++
  "        run: sleep 10\n" ++
  "\n" ++
  "      - name: Install published package from PyPI\n" ++
  "        if: inputs.production\n" ++
  "        run: |\n" ++
  "          pip install "

/-- Literal run up to the Test PyPI `pip install` hole. -/
def tpl13 : String :=
  "\n" ++
  "\n" ++
  "      - name: Install published package from Test PyPI\n" ++
  "        if: github.event_name == \x27push\x27 || !inputs.production\n" ++
  "        run: |\n" ++
  "          pip install \x2d\x2dindex-url https://test.pypi.org/simple/ \x2d\x2dextra-index-url https://pypi.org/simple "

/-- Literal run from the pinned install up to the smoke-test version
hole. -/
def tpl14 : String :=
  "==$\x7b\x7b steps.verify-version.outputs.version \x7d\x7d\n" ++
  "\n" ++
  "      - name: Smoke test - verify version\n" ++
  "        run: |\n" ++
  "          EXPECTED_VERSION=$(python -c \"import tomllib; print(tomllib.load(open(\x27pyproject.toml\x27, \x27rb\x27))[\x27project\x27][\x27version\x27])\")\n" ++
  "          INSTALLED_VERSION=$(python -c \"from importlib.metadata import version; print(version(\x27"

/-- Literal run from the smoke test up to the production-link hole. -/
def tpl15 : String :=
  "\x27))\")\n" ++
  "          echo \"Expected version: $EXPECTED_VERSION\"\n" ++
  "          echo \"Installed version: $INSTALLED_VERSION\"\n" ++
  "          if [ \"$EXPECTED_VERSION\" != \"$INSTALLED_VERSION\" ]; then\n" ++
  "            echo \"Version mismatch!\"\n" ++
  "            exit 1\n" ++
  "          fi\n" ++
  "          echo \"Smoke test passed: versions match!\"\n" ++
  "\n" ++
  "      - name: Generate package link\n" ++
  "        run: |\n" ++
  "          VERSION=$\x7b\x7b steps.verify-version.outputs.version \x7d\x7d\n" ++
  "          if [ \"$\x7b\x7b inputs.production \x7d\x7d\" == \"true\" ]; then\n" ++
  "            LINK=\"https://pypi.org/project/"

/-- Literal run between the production link hole and the production
summary hole. -/
def tpl16 : String :=
  "/$VERSION/\"\n" ++
  "            echo \"## :rocket: Package Released\" >> $GITHUB_STEP_SUMMARY\n" ++
  "            echo \"\" >> $GITHUB_STEP_SUMMARY\n" ++
  "            echo \"**"

/-- Literal run between the production summary hole and the test link
hole. -/
def tpl17 : String :=
  " v$VERSION** has been published to PyPI!\" >> $GITHUB_STEP_SUMMARY\n" ++
  "            echo \"\" >> $GITHUB_STEP_SUMMARY\n" ++
  "            echo \":link: [$LINK]($LINK)\" >> $GITHUB_STEP_SUMMARY\n" ++
  "          else\n" ++
  "            LINK=\"https://test.pypi.org/project/"

/-- Literal run between the test link hole and the test summary hole. -/
def tpl18 : String :=
  "/$VERSION/\"\n" ++
  "            echo \"## :test_tube: Package Released to Test PyPI\" >> $GITHUB_STEP_SUMMARY\n" ++
  "            echo \"\" >> $GITHUB_STEP_SUMMARY\n" ++
  "            echo \"**"

/-- Closing literal run of the template. -/
def tpl19 : String :=
  " v$VERSION** has been published to Test PyPI!\" >> $GITHUB_STEP_SUMMARY\n" ++
  "            echo \"\" >> $GITHUB_STEP_SUMMARY\n" ++
  "            echo \":link: [$LINK]($LINK)\" >> $GITHUB_STEP_SUMMARY\n" ++
  "          fi\n"

/-- `generate_workflow` of `generate_release_workflows.py`: the
template f-string with its holes filled in order — `pkg.name` holes, the
defaults section, the `dist_path` holes, and the two packages-dir
sections. -/
def generate_workflow (pkg : Package) : String :=
  tpl0 ++ pkg.name ++ tpl1 ++ pkg.name ++ tpl2 ++ pkg.name ++ tpl3 ++ pkg.name ++ tpl4 ++
  defaults_section pkg ++ tpl5 ++ pkg.name ++ tpl6 ++ pkg.name ++ tpl7 ++ dist_path pkg ++
  tpl8 ++ dist_path pkg ++ tpl9 ++ dist_path pkg ++ tpl10 ++ packages_dir_pypi pkg ++
  tpl11 ++ packages_dir_testpypi pkg ++ tpl12 ++ pkg.name ++ tpl13 ++ pkg.name ++ tpl14 ++
  pkg.name ++ tpl15 ++ pkg.name ++ tpl16 ++ pkg.name ++ tpl17 ++ pkg.name ++ tpl18 ++
  pkg.name ++ tpl19

/-- The file name `main` writes for a package (the file is placed in the
script's own directory, which is not modelled). -/
def releaseFileName (pkg : Package) : String := "release-" ++ pkg.name ++ ".yml"

/-- Model of `main`: the sequence of (file name, file content) writes it
performs, one per entry of `PACKAGES`, in order. -/
def main_outputs : List (String × String) :=
  PACKAGES.map fun pkg => (releaseFileName pkg, generate_workflow pkg)

/-- `sub` occurs as a contiguous substring of `s`. -/
def strContains (s sub : String) : Prop := sub.data <:+: s.data

end ReleaseWorkflows

namespace DatabricksMcp

/-- C1: for every workspace client whose identity check succeeds and
whose authentication-header mapping binds `Authorization` to
`Bearer test-token`, construction succeeds and the token accessor
returns a non-null Credential Token with access token `test-token`,
expiry 60, and a token type lowercasing to `bearer`. -/
theorem oauth_provider_success (wc : WorkspaceClient)
    (hid : wc.identity = .ok)
    (hauth : lookupHeader "Authorization" wc.authHeaders = some "Bearer test-token") :
    ∃ s : TokenStorage,
      (constructProvider wc).2 = .ok s ∧
      (TokenStorage.get_tokens s).2.2 = some s.token ∧
      s.token.access_token = "test-token" ∧
      s.token.expires_in = 60 ∧
      strLower s.token.token_type = "bearer" := by
  refine ⟨⟨⟨"test-token", "Bearer", 60⟩⟩, ?_, rfl, rfl, rfl, by decide⟩
  unfold constructProvider
  simp only [hid, hauth]
  rfl

/-- Witness for C1 at the unit test's client shape. -/
theorem oauth_provider_success_witness :
    (⟨.ok, [("Authorization", "Bearer test-token")]⟩ : WorkspaceClient).identity = .ok ∧
    lookupHeader "Authorization" [("Authorization", "Bearer test-token")] =
      some "Bearer test-token" ∧
    ∃ s : TokenStorage,
      (constructProvider ⟨.ok, [("Authorization", "Bearer test-token")]⟩).2 = .ok s ∧
      (TokenStorage.get_tokens s).2.2 = some s.token ∧
      s.token.access_token = "test-token" ∧
      s.token.expires_in = 60 ∧
      strLower s.token.token_type = "bearer" :=
  ⟨rfl, by decide, oauth_provider_success ⟨.ok, [("Authorization", "Bearer test-token")]⟩
    rfl (by decide)⟩

/-- C2: for every workspace client whose identity check succeeds but
whose `Authorization` entry has a scheme prefix other than exactly
`Bearer`, construction fails with the value error
"Invalid authentication token format. Expected Bearer token." and no
adapter is returned. -/
theorem invalid_scheme_rejected (wc : WorkspaceClient) (v : String)
    (hid : wc.identity = .ok)
    (hauth : lookupHeader "Authorization" wc.authHeaders = some v)
    (hs : authScheme v ≠ "Bearer") :
    (constructProvider wc).2 = .error (.valueError invalidTokenMessage) := by
  unfold constructProvider
  simp only [hid, hauth]
  simp [hs]

/-- Witness for C2 at the unit test's `Basic abc123` header. -/
theorem invalid_scheme_rejected_witness :
    authScheme "Basic abc123" ≠ "Bearer" ∧
    lookupHeader "Authorization" [("Authorization", "Basic abc123")] = some "Basic abc123" ∧
    (constructProvider ⟨.ok, [("Authorization", "Basic abc123")]⟩).2 =
      .error (.valueError invalidTokenMessage) :=
  ⟨by decide, by decide,
   invalid_scheme_rejected ⟨.ok, [("Authorization", "Basic abc123")]⟩ "Basic abc123"
     rfl (by decide) (by decide)⟩

/-- C3: for every workspace client whose identity check raises
permission-denied, construction fails with the permission error
"The workspace client does not have permission to access the Databricks
workspace", and the preflight is not retried (exactly one
identity-check call is made). -/
theorem permission_denied_fails (wc : WorkspaceClient) (msg : String)
    (hid : wc.identity = .permissionDenied msg) :
    (constructProvider wc).2 = .error (.permissionError permissionDeniedMessage) ∧
    (constructProvider wc).1 = [ClientCall.identityCheck] := by
  unfold constructProvider
  rw [hid]
  exact ⟨rfl, rfl⟩

/-- Witness for C3 at the unit test's permission-denied client. -/
theorem permission_denied_fails_witness :
    (⟨.permissionDenied
        "This API is disabled for users without the workspace-access entitlement.",
      [("Authorization", "Bearer test-token")]⟩ : WorkspaceClient).identity =
      .permissionDenied
        "This API is disabled for users without the workspace-access entitlement." ∧
    (constructProvider
        ⟨.permissionDenied
            "This API is disabled for users without the workspace-access entitlement.",
          [("Authorization", "Bearer test-token")]⟩).2 =
      .error (.permissionError permissionDeniedMessage) ∧
    (constructProvider
        ⟨.permissionDenied
            "This API is disabled for users without the workspace-access entitlement.",
          [("Authorization", "Bearer test-token")]⟩).1 = [ClientCall.identityCheck] :=
  ⟨rfl,
   permission_denied_fails _
     "This API is disabled for users without the workspace-access entitlement." rfl⟩

/-- C4: for every successfully constructed adapter, the token accessor
returns an equal Credential Token on every call: it does not mutate the
storage state, and a repeated call returns the same token. -/
theorem get_tokens_idempotent (wc : WorkspaceClient) (s : TokenStorage)
    (_h : (constructProvider wc).2 = .ok s) :
    (TokenStorage.get_tokens s).2.1 = s ∧
    (TokenStorage.get_tokens s).2.2 = some s.token ∧
    (TokenStorage.get_tokens (TokenStorage.get_tokens s).2.1).2.2 =
      (TokenStorage.get_tokens s).2.2 :=
  ⟨rfl, rfl, rfl⟩

/-- Witness for C4 at the unit test's successfully constructed adapter. -/
theorem get_tokens_idempotent_witness :
    (constructProvider ⟨.ok, [("Authorization", "Bearer test-token")]⟩).2 =
      .ok ⟨⟨"test-token", "Bearer", 60⟩⟩ ∧
    (TokenStorage.get_tokens ⟨⟨"test-token", "Bearer", 60⟩⟩).2.1 =
      (⟨⟨"test-token", "Bearer", 60⟩⟩ : TokenStorage) ∧
    (TokenStorage.get_tokens ⟨⟨"test-token", "Bearer", 60⟩⟩).2.2 =
      some (⟨⟨"test-token", "Bearer", 60⟩⟩ : TokenStorage).token ∧
    (TokenStorage.get_tokens
        (TokenStorage.get_tokens ⟨⟨"test-token", "Bearer", 60⟩⟩).2.1).2.2 =
      (TokenStorage.get_tokens ⟨⟨"test-token", "Bearer", 60⟩⟩).2.2 :=
  ⟨rfl, get_tokens_idempotent ⟨.ok, [("Authorization", "Bearer test-token")]⟩
    ⟨⟨"test-token", "Bearer", 60⟩⟩ rfl⟩

/-- C5: for every successfully constructed adapter, the token accessor
never fails, performs no workspace-client call, and resolves with the
cached token; construction is the only place the two failure kinds can
surface. -/
theorem failures_only_at_construction (wc : WorkspaceClient) (s : TokenStorage)
    (_h : (constructProvider wc).2 = .ok s) :
    (TokenStorage.get_tokens s).1 = [] ∧
    (TokenStorage.get_tokens s).2.2 = some s.token ∧
    (TokenStorage.get_tokens s).2.2 ≠ none :=
  ⟨rfl, rfl, by simp [TokenStorage.get_tokens]⟩

/-- Witness for C5 at the unit test's successfully constructed adapter. -/
theorem failures_only_at_construction_witness :
    (constructProvider ⟨.ok, [("Authorization", "Bearer test-token")]⟩).2 =
      .ok ⟨⟨"test-token", "Bearer", 60⟩⟩ ∧
    (TokenStorage.get_tokens ⟨⟨"test-token", "Bearer", 60⟩⟩).1 = [] ∧
    (TokenStorage.get_tokens ⟨⟨"test-token", "Bearer", 60⟩⟩).2.2 =
      some (⟨⟨"test-token", "Bearer", 60⟩⟩ : TokenStorage).token ∧
    (TokenStorage.get_tokens ⟨⟨"test-token", "Bearer", 60⟩⟩).2.2 ≠ none :=
  ⟨rfl, failures_only_at_construction ⟨.ok, [("Authorization", "Bearer test-token")]⟩
    ⟨⟨"test-token", "Bearer", 60⟩⟩ rfl⟩

/-- C6: invariant — a Credential Token exists only if the client's
`Authorization` header uses the `Bearer` scheme: whenever construction
succeeds, the header mapping has an `Authorization` entry whose scheme
prefix is exactly `Bearer`. -/
theorem token_requires_bearer_scheme (wc : WorkspaceClient) (s : TokenStorage)
    (h : (constructProvider wc).2 = .ok s) :
    ∃ v, lookupHeader "Authorization" wc.authHeaders = some v ∧ authScheme v = "Bearer" := by
  unfold constructProvider at h
  split at h
  · exact Except.noConfusion h
  · split at h
    · exact Except.noConfusion h
    · rename_i v hv
      by_cases hb : authScheme v = "Bearer"
      · exact ⟨v, hv, hb⟩
      · rw [if_neg hb] at h
        exact Except.noConfusion h

/-- Witness for C6 at the unit test's successful construction. -/
theorem token_requires_bearer_scheme_witness :
    (constructProvider ⟨.ok, [("Authorization", "Bearer test-token")]⟩).2 =
      .ok ⟨⟨"test-token", "Bearer", 60⟩⟩ ∧
    ∃ v, lookupHeader "Authorization" [("Authorization", "Bearer test-token")] = some v ∧
      authScheme v = "Bearer" :=
  ⟨rfl, token_requires_bearer_scheme ⟨.ok, [("Authorization", "Bearer test-token")]⟩
    ⟨⟨"test-token", "Bearer", 60⟩⟩ rfl⟩

/-- C7: for every workspace client whose identity check fails with
permission-denied, construction makes the identity-check call and never
the header-derivation call: its trace is exactly one identity check,
with zero (hence at most one) header derivations. -/
theorem preflight_before_header_derivation (wc : WorkspaceClient) (msg : String)
    (hid : wc.identity = .permissionDenied msg) :
    (constructProvider wc).1 = [ClientCall.identityCheck] ∧
    (constructProvider wc).1.count ClientCall.identityCheck = 1 ∧
    (constructProvider wc).1.count ClientCall.headerDerivation = 0 := by
  unfold constructProvider
  rw [hid]
  exact ⟨rfl, rfl, rfl⟩

/-- Witness for C7 at the unit test's permission-denied client. -/
theorem preflight_before_header_derivation_witness :
    (⟨.permissionDenied "denied", [("Authorization", "Bearer test-token")]⟩ :
        WorkspaceClient).identity = .permissionDenied "denied" ∧
    (constructProvider
        ⟨.permissionDenied "denied", [("Authorization", "Bearer test-token")]⟩).1 =
      [ClientCall.identityCheck] ∧
    (constructProvider
        ⟨.permissionDenied "denied", [("Authorization", "Bearer test-token")]⟩).1.count
        ClientCall.identityCheck = 1 ∧
    (constructProvider
        ⟨.permissionDenied "denied", [("Authorization", "Bearer test-token")]⟩).1.count
        ClientCall.headerDerivation = 0 :=
  ⟨rfl, preflight_before_header_derivation
    ⟨.permissionDenied "denied", [("Authorization", "Bearer test-token")]⟩ "denied" rfl⟩

end DatabricksMcp

namespace ReleaseWorkflows

/-- A string contains itself. -/
theorem strContains_self (s : String) : strContains s s :=
  ⟨[], [], by simp⟩

/-- Containment is preserved by appending on the right. -/
theorem strContains_append_left (a b sub : String) (h : strContains a sub) :
    strContains (a ++ b) sub := by
  obtain ⟨p, q, hpq⟩ := h
  refine ⟨p, q ++ b.data, ?_⟩
  show p ++ sub.data ++ (q ++ b.data) = (a ++ b).data
  rw [show (a ++ b).data = a.data ++ b.data from rfl, ← hpq]
  simp

/-- Containment is preserved by appending on the left. -/
theorem strContains_append_right (a b sub : String) (h : strContains b sub) :
    strContains (a ++ b) sub := by
  obtain ⟨p, q, hpq⟩ := h
  refine ⟨a.data ++ p, q, ?_⟩
  show a.data ++ p ++ sub.data ++ q = (a ++ b).data
  rw [show (a ++ b).data = a.data ++ b.data from rfl, ← hpq]
  simp

/-- C8: `main` generates one workflow per entry of the four-element
`PACKAGES` list, writing `generate_workflow pkg` under the file name
`release-<package name>.yml`; the four names are distinct, so four
distinct files are written. -/
theorem main_writes_one_file_per_package :
    main_outputs =
      PACKAGES.map (fun pkg => ("release-" ++ pkg.name ++ ".yml", generate_workflow pkg)) ∧
    main_outputs.map Prod.fst =
      ["release-databricks-ai-bridge.yml", "release-databricks-langchain.yml",
       "release-databricks-mcp.yml", "release-databricks-openai.yml"] ∧
    (main_outputs.map Prod.fst).Nodup ∧
    main_outputs.length = 4 := by
  refine ⟨rfl, by decide, by decide, rfl⟩

/-- C9: `generate_workflow` is deterministic in its input: two packages
with the same name and the same working directory yield identical
workflow strings (the function reads no other state). -/
theorem generate_workflow_deterministic (p q : Package)
    (hn : p.name = q.name) (hw : p.working_dir = q.working_dir) :
    generate_workflow p = generate_workflow q := by
  have hpq : p = q := by
    obtain ⟨pn, pw⟩ := p
    obtain ⟨qn, qw⟩ := q
    simp only [Package.mk.injEq]
    exact ⟨hn, hw⟩
  rw [hpq]

/-- Witness for C9 at a concrete package. -/
theorem generate_workflow_deterministic_witness :
    generate_workflow ⟨"databricks-mcp", some "databricks_mcp"⟩ =
      generate_workflow ⟨"databricks-mcp", some "databricks_mcp"⟩ :=
  generate_workflow_deterministic ⟨"databricks-mcp", some "databricks_mcp"⟩
    ⟨"databricks-mcp", some "databricks_mcp"⟩ rfl rfl

/-- C10: for every package with a working directory, the generated
workflow uses `<working_dir>/dist/` as the distribution path and
contains the `working-directory: <working_dir>` default and the
`packages-dir: <working_dir>/dist/` parameter; for a root-level package
the distribution path is exactly `dist/` and the defaults and
packages-dir sections are empty. -/
theorem workflow_working_dir_sections (pkg : Package) :
    match pkg.working_dir with
    | some wd =>
        dist_path pkg = wd ++ "/dist/" ∧
        strContains (generate_workflow pkg) ("working-directory: " ++ wd) ∧
        strContains (generate_workflow pkg) ("packages-dir: " ++ (wd ++ "/dist/"))
    | none =>
        dist_path pkg = "dist/" ∧ defaults_section pkg = "" ∧
        packages_dir_pypi pkg = "" ∧ packages_dir_testpypi pkg = "" := by
  obtain ⟨n, wd⟩ := pkg
  cases wd with
  | none => exact ⟨rfl, rfl, rfl, rfl⟩
  | some wd =>
      refine ⟨rfl, ?_, ?_⟩
      · simp only [generate_workflow, defaults_section]
        iterate 29 (apply strContains_append_left)
        apply strContains_append_right
        apply strContains_append_left
        apply strContains_append_right
        exact strContains_self _
      · simp only [generate_workflow, packages_dir_pypi]
        iterate 17 (apply strContains_append_left)
        apply strContains_append_right
        apply strContains_append_right
        exact strContains_self _

end ReleaseWorkflows
